import Mathlib

/-
Verification development for the prism-python data-loading client
(src/prism/prism.py).  The Python module is shallowly embedded: JSON
dictionaries become structures with Option-valued attributes (none models an
absent key), in-place mutation of a caller-owned dictionary is made explicit
by returning the post-call state of that dictionary alongside the return
value, an uncaught Python exception is an Except.error, and the HTTP
collaborator is a parameter (a function from request parameters to a
response).  Paging loops take a fuel argument; running out of fuel behaves
like the loop's break (returning what has accumulated), so every theorem
below quantifies over all fuel values.
-/

/-- Characters of a string lowercased; models the Python str.lower() calls
used by the client-side search filters. -/
def pyLower (s : String) : String := ⟨s.data.map Char.toLower⟩

/-- Boolean test that the first character list is a prefix of the second. -/
def charsPre : List Char → List Char → Bool
  | [], _ => true
  | _ :: _, [] => false
  | a :: as, b :: bs => (a == b) && charsPre as bs

/-- Boolean test that the first character list occurs contiguously inside the
second. -/
def charsSub (n : List Char) : List Char → Bool
  | [] => n.isEmpty
  | b :: bs => charsPre n (b :: bs) || charsSub n bs

/-- Python substring containment, needle in haystack. -/
def pyIn (needle haystack : String) : Bool := charsSub needle.data haystack.data

/-- Python str.startswith. -/
def pyStartsWith (s pre : String) : Bool := charsPre pre.data s.data

/-- Models the minor clean-up table_name.replace(" ", "_") in tables_get. -/
def pyUnderscore (s : String) : String :=
  ⟨s.data.map (fun c => if c == ' ' then '_' else c)⟩

/-- The value of a field dictionary's "type" key: a nested dictionary whose
"id" and "descriptor" keys may each be absent. -/
structure FieldType where
  id : Option String
  descriptor : Option String
deriving DecidableEq

/-- A schema field dictionary.  Every key the source reads or writes is an
attribute here; none models an absent key.  (Named PField because Mathlib already
declares Field.) -/
structure PField where
  name : String
  displayName : Option String
  ordinal : Option Int
  fieldId : Option String
  id : Option String
  type : Option FieldType
  externalId : Option Bool
  required : Option Bool
deriving DecidableEq

/-- The "parseOptions" value of a schema: the wire attributes the source
either copies through or defaults (table_to_bucket_schema lines 199-210). -/
structure ParseOptions where
  fieldsDelimitedBy : String
  fieldsEnclosedBy : String
  headerLinesToIgnore : Int
  charset : String
  fileType : String
deriving DecidableEq

/-- The CSV parse options table_to_bucket_schema supplies when the schema has
none. -/
def defaultParseOptions : ParseOptions :=
  { fieldsDelimitedBy := ","
    fieldsEnclosedBy := "\""
    headerLinesToIgnore := 1
    charset := "Encoding=UTF-8"
    fileType := "Schema_File_Type=Delimited" }

/-- A table/schema dictionary.  The nine attributes of the allow-list in
schema_compact plus "parseOptions" (read by table_to_bucket_schema) are
explicit; extraKeys holds the names of any further top-level attributes,
whose values no embedded operation ever reads. -/
structure Schema where
  name : Option String
  id : Option String
  fields : Option (List PField)
  tags : Option (List String)
  categories : Option (List String)
  displayName : Option String
  description : Option String
  documentation : Option String
  enableForAnalysis : Option Bool
  parseOptions : Option ParseOptions
  extraKeys : List String
deriving DecidableEq

/-- The loop body of schema_compact (prism.py lines 113-127) applied to the
field dictionary at index i: sets ordinal := i + 1, deletes "fieldId" and
"id", and when a type descriptor is present rewrites it to the compact
Schema_Field_Type reference, deleting "descriptor". -/
def compactFieldUpdate (i : Nat) (fld : PField) : PField :=
  let fld1 : PField := { fld with ordinal := some ((i : Int) + 1), fieldId := none, id := none }
  match fld1.type with
  | none => fld1
  | some t =>
    match t.descriptor with
    | none => fld1
    | some d =>
      { fld1 with type := some { id := some ("Schema_Field_Type=" ++ d), descriptor := none } }

/-- The allow-list strip of schema_compact (prism.py lines 129-145): every
top-level attribute other than name, id, fields, tags, categories,
displayName, description, documentation and enableForAnalysis is deleted.  In
this embedding that removes parseOptions and the extra keys. -/
def schemaAllowListStrip (s : Schema) : Schema :=
  { s with parseOptions := none, extraKeys := [] }

/-- Shallow embedding of schema_compact (prism.py lines 93-147).  The source
deep-copies the input, filters the copied field list by name prefix, but then
walks the loop with the alias fld = schema["fields"][ordinal], mutating the
caller's field dictionaries in place.  The embedding returns the pair of the
function's return value and the caller's schema object as it stands after the
call, so that claims about purity and about the returned value are both
statable.  A none input models Python None (returns None, nothing mutated). -/
def schema_compact (schema : Option Schema) : Option Schema × Option Schema :=
  match schema with
  | none => (none, none)
  | some s =>
    match s.fields with
    | none => (some (schemaAllowListStrip s), some s)
    | some flds =>
      let filtered := flds.filter (fun fld => !(pyStartsWith fld.name "WPA_"))
      let k := filtered.length
      let mutated := flds.mapIdx (fun i fld => if i < k then compactFieldUpdate i fld else fld)
      (some (schemaAllowListStrip { s with fields := some filtered }),
       some { s with fields := some mutated })

/-- A field of the derived bucket schema: name, ordinal and type survive,
useAsOperationKey is added, and id, displayName, fieldId, required and
externalId are deleted (prism.py lines 182-197). -/
structure BField where
  name : String
  ordinal : Option Int
  type : Option FieldType
  useAsOperationKey : Bool
deriving DecidableEq

/-- The bucket (file-parsing) schema built by table_to_bucket_schema. -/
structure BucketSchema where
  schemaVersion : String
  parseOptions : ParseOptions
  fields : List BField
deriving DecidableEq

/-- Per-field step of table_to_bucket_schema: reading fld["externalId"] on a
field without that key raises KeyError; otherwise useAsOperationKey is true
exactly when the value is the boolean True. -/
def bucketField (fld : PField) : Except String BField :=
  match fld.externalId with
  | none => .error "KeyError: externalId"
  | some b =>
    .ok { name := fld.name, ordinal := fld.ordinal, type := fld.type, useAsOperationKey := b }

/-- The two field loops of table_to_bucket_schema fused per field: the first
missing externalId key raises, otherwise each field is rewritten to its
bucket form in order. -/
def bucketFields : List PField → Except String (List BField)
  | [] => .ok []
  | f :: t =>
    match bucketField f with
    | .error e => .error e
    | .ok b =>
      match bucketFields t with
      | .error e => .error e
      | .ok bs => .ok (b :: bs)

/-- Shallow embedding of table_to_bucket_schema (prism.py lines 150-215).
Fields whose name CONTAINS the substring "WPA" are dropped (the source tests
"WPA" in x["name"]); each surviving field gains useAsOperationKey from its
externalId value and loses the server-assigned identifier attributes; parse
options come from the schema when present, else from the defaults.  An
Except.error models an uncaught Python exception; Except.ok none models the
source returning None for an invalid table. -/
def table_to_bucket_schema (table : Option Schema) : Except String (Option BucketSchema) :=
  match table with
  | none => .ok none
  | some t =>
    match t.fields with
    | none => .ok none
    | some flds =>
      let fields := flds.filter (fun x => !(pyIn "WPA" x.name))
      match bucketFields fields with
      | .error e => .error e
      | .ok bfields =>
        .ok (some { schemaVersion := "Schema_Version=1.0"
                    parseOptions := match t.parseOptions with
                      | some p => p
                      | none => defaultParseOptions
                    fields := bfields })

/-- An item of a tables or data-changes listing: the two attributes the
client-side filters read. -/
structure Item where
  name : String
  displayName : String
deriving DecidableEq

/-- An item of a buckets listing: the filters read the bucket name, its
display name and the target dataset reference. -/
structure BucketItem where
  name : String
  displayName : String
  targetId : String
  targetDescriptor : String
deriving DecidableEq

/-- A parsed paged response body: the total the server reports and the page
of items. -/
structure PageOf (α : Type) where
  total : Int
  data : List α
deriving DecidableEq

/-- Outcome of one HTTP GET as the pagers see it: a 200 with a parsed body,
or any other status (the pagers only test status_code != 200). -/
inductive HttpResult (α : Type)
  | ok (page : PageOf α)
  | err
deriving DecidableEq

/-- Query parameters of one tables GET: limit, offset and the optional exact
name parameter.  The output type parameter never influences control flow and
is omitted. -/
structure TParams where
  limit : Int
  offset : Int
  name : Option String
deriving DecidableEq

/-- The while-loop of tables_get (prism.py lines 548-593) with fuel.  Each
turn fetches one page; a non-200 breaks; the exact-name path (search false
with a name) returns the parsed body verbatim; otherwise the page is filtered
case-insensitively by substring against name and displayName when a name is
present, appended, and paging continues on a full page when searching.
Breaking (or fuel running out) recomputes total as the length of the data. -/
def tables_scan (server : TParams → HttpResult Item) (table_name : Option String)
    (search : Bool) : TParams → List Item → Nat → PageOf Item
  | _, acc, 0 => { total := (acc.length : Int), data := acc }
  | params, acc, fuel + 1 =>
    match server params with
    | .err => { total := (acc.length : Int), data := acc }
    | .ok tables =>
      if !search && table_name.isSome then
        tables
      else
        let match_tables :=
          match table_name with
          | some tn =>
            tables.data.filter (fun tab =>
              pyIn (pyLower tn) (pyLower tab.name) || pyIn (pyLower tn) (pyLower tab.displayName))
          | none => tables.data
        let acc2 := acc ++ match_tables
        if (tables.data.length : Int) < params.limit then
          { total := (acc2.length : Int), data := acc2 }
        else if search then
          tables_scan server table_name search
            { params with offset := params.offset + params.limit } acc2 fuel
        else
          { total := (acc2.length : Int), data := acc2 }

/-- The offset entry of the params dictionary of tables_get (prism.py line
521).  The source evaluates offset if (isinstance(limit, int) and offset >=
0) else 0: the guard tests the TYPE OF LIMIT, so an integer limit together
with a None offset reaches the comparison None >= 0 and raises TypeError
before any request is made. -/
def tables_offset_entry (limit offset : Option Int) : Except String Int :=
  match limit with
  | none => .ok 0
  | some _ =>
    match offset with
    | none => .error "TypeError: comparison of NoneType and int"
    | some o => .ok (if 0 ≤ o then o else 0)

/-- Shallow embedding of the non-ID path of tables_get, continued: the branch
chain and the paging loop, once the params dictionary was built without
raising. -/
def tables_get_prepared (server : TParams → HttpResult Item) (table_name : Option String)
    (limit : Option Int) (limit_p offset_p : Int) (search : Bool) (fuel : Nat) :
    PageOf Item :=
  let (params, search2) :=
    match search, table_name with
    | false, some tn =>
      (({ limit := 1, offset := 0, name := some (pyUnderscore tn) } : TParams), false)
    | true, some _ => (({ limit := 100, offset := 0, name := none } : TParams), true)
    | false, none =>
      if limit.isNone then (({ limit := 100, offset := 0, name := none } : TParams), true)
      else (({ limit := limit_p, offset := offset_p, name := none } : TParams), false)
    | true, none => (({ limit := limit_p, offset := offset_p, name := none } : TParams), true)
  tables_scan server table_name search2 params [] fuel

/-- Shallow embedding of the non-ID path of tables_get, assembled: the limit
entry of the params dictionary, the fallible offset entry, then the prepared
branch chain and loop. -/
def tables_get (server : TParams → HttpResult Item) (table_name : Option String)
    (limit offset : Option Int) (search : Bool) (fuel : Nat) :
    Except String (PageOf Item) :=
  let limit_p : Int :=
    match limit with
    | some l => if l ≤ 100 then l else 20
    | none => 20
  match tables_offset_entry limit offset with
  | .error e => .error e
  | .ok offset_p => .ok (tables_get_prepared server table_name limit limit_p offset_p search fuel)

/-- Query parameters of one buckets GET.  The name entry carries the exact
bucket name (urlparse.quote only changes the wire encoding of the same
name and is modelled as the identity). -/
structure BParams where
  limit : Int
  offset : Int
  name : Option String
deriving DecidableEq

/-- The while-loop of buckets_get (prism.py lines 786-836).  The exact-name
path returns the parsed body verbatim; otherwise the page is filtered by the
first applicable criterion: bucket name (case-SENSITIVE substring), target
table id (equality), target table name (equality, or case-insensitive
substring when searching), or no filter. -/
def buckets_scan (server : BParams → HttpResult BucketItem)
    (bucket_name table_id table_name : Option String) (search : Bool) :
    BParams → List BucketItem → Nat → PageOf BucketItem
  | _, acc, 0 => { total := (acc.length : Int), data := acc }
  | params, acc, fuel + 1 =>
    match server params with
    | .err => { total := (acc.length : Int), data := acc }
    | .ok buckets =>
      if !search && bucket_name.isSome then
        buckets
      else
        let match_buckets :=
          match bucket_name with
          | some bn =>
            buckets.data.filter (fun bck => pyIn bn bck.name || pyIn bn bck.displayName)
          | none =>
            match table_id with
            | some tid => buckets.data.filter (fun bck => tid == bck.targetId)
            | none =>
              match table_name with
              | some tn =>
                buckets.data.filter (fun bck =>
                  tn == bck.targetDescriptor
                    || (search && pyIn (pyLower tn) (pyLower bck.targetDescriptor)))
              | none => buckets.data
        let acc2 := acc ++ match_buckets
        if (buckets.data.length : Int) < params.limit then
          { total := (acc2.length : Int), data := acc2 }
        else if search then
          buckets_scan server bucket_name table_id table_name search
            { params with offset := params.offset + params.limit } acc2 fuel
        else
          { total := (acc2.length : Int), data := acc2 }

/-- Shallow embedding of the non-ID path of buckets_get (prism.py lines
758-838).  The initial limit/offset entries of the params dictionary are
unconditionally overwritten by the branch: exact bucket name gives limit 1 /
offset 0 without searching; every other combination forces search with limit
100 / offset 0. -/
def buckets_get (server : BParams → HttpResult BucketItem) (bucket_name : Option String)
    (search : Bool) (table_id table_name : Option String) (fuel : Nat) : PageOf BucketItem :=
  let (params, search2) :=
    match search, bucket_name with
    | false, some bn => (({ limit := 1, offset := 0, name := some bn } : BParams), false)
    | _, _ => (({ limit := 100, offset := 0, name := none } : BParams), true)
  buckets_scan server bucket_name table_id table_name search2 params [] fuel

/-- Query parameters of one data-changes GET, as assembled into the search
URL: type is omitted (it never influences control flow), name is the optional
name_param. -/
structure DCParams where
  limit : Int
  offset : Int
  name : Option String
deriving DecidableEq

/-- The while-loop of dataChanges_get (prism.py lines 1163-1191).  The
searching argument carries the name being searched for (none models searching
= False, in which case the single fetched page is appended and the loop
breaks immediately). -/
def dataChanges_scan (server : DCParams → HttpResult Item) (searching : Option String)
    (search_limit : Int) (nparam : Option String) :
    Int → List Item → Nat → List Item
  | _, acc, 0 => acc
  | search_offset, acc, fuel + 1 =>
    match server { limit := search_limit, offset := search_offset, name := nparam } with
    | .err => acc
    | .ok page =>
      match searching with
      | some n =>
        let acc2 := acc ++ page.data.filter (fun dtc =>
          pyIn (pyLower n) (pyLower dtc.name) || pyIn (pyLower n) (pyLower dtc.displayName))
        if (page.data.length : Int) < search_limit then acc2
        else dataChanges_scan server searching search_limit nparam
          (search_offset + search_limit) acc2 fuel
      | none => acc ++ page.data

/-- The four loop-controlling values dataChanges_get computes before its
loop: the search mode (carrying the searched-for name), the name query
parameter, and the page limit and starting offset. -/
structure DCSetup where
  searching : Option String
  nparam : Option String
  search_limit : Int
  search_offset : Int
deriving DecidableEq

/-- Shallow embedding of the non-ID path of dataChanges_get (prism.py lines
1124-1161): the values set up before the loop.  Limits default to 500/0 with
positive caller overrides; a non-empty name either forces a full search
(search true: limit 500, offset 0, no name parameter) or an exact-name single
fetch (limit 1, offset 0, name parameter set). -/
def dataChanges_setup (datachange_name : Option String) (limit offset : Option Int)
    (search : Bool) : DCSetup :=
  let search_limit : Int :=
    match limit with
    | some l => if 0 < l then l else 500
    | none => 500
  let search_offset : Int :=
    match offset with
    | some o => if 0 < o then o else 0
    | none => 0
  match datachange_name with
  | some n =>
    if 0 < n.length then
      if search then
        { searching := some n, nparam := none, search_limit := 500, search_offset := 0 }
      else
        { searching := none, nparam := some n, search_limit := 1, search_offset := 0 }
    else
      { searching := none, nparam := none
        search_limit := search_limit, search_offset := search_offset }
  | none =>
    { searching := none, nparam := none
      search_limit := search_limit, search_offset := search_offset }

/-- Shallow embedding of the non-ID path of dataChanges_get, assembled: run
the loop with the prepared values; the total is recomputed from the
accumulated data on every path. -/
def dataChanges_get (server : DCParams → HttpResult Item) (datachange_name : Option String)
    (limit offset : Option Int) (search : Bool) (fuel : Nat) : PageOf Item :=
  let st := dataChanges_setup datachange_name limit offset search
  let data := dataChanges_scan server st.searching st.search_limit st.nparam st.search_offset [] fuel
  { total := (data.length : Int), data := data }

/-- An opaque parsed JSON body, rendered as an association list of keys to
printed values; the embedded operations never look inside one. -/
abbrev Json : Type := List (String × String)

/-- Outcome of one HTTP POST as buckets_complete sees it: the status code and
the parse of the body (none models a body on which r.json() raises). -/
structure HttpResp where
  status : Nat
  json : Option Json
deriving DecidableEq

/-- Shallow embedding of buckets_complete (prism.py lines 969-998) as a
function of the response to the complete POST: 201 returns the parsed body,
400 is the non-fatal structured error and also returns the parsed body, and
every other status returns None without touching the body. -/
def buckets_complete (resp : HttpResp) : Except String (Option Json) :=
  if resp.status == 201 then
    match resp.json with
    | some j => .ok (some j)
    | none => .error "JSONDecodeError"
  else if resp.status == 400 then
    match resp.json with
    | some j => .ok (some j)
    | none => .error "JSONDecodeError"
  else
    .ok none

/-- Result of the exact-name table lookup tables_get(table_name=...) as
buckets_create consumes it: the reported total and the data list of full
table dictionaries. -/
structure TablesList where
  total : Int
  data : List Schema
deriving DecidableEq

/-- The wire payload buckets_create assembles (prism.py lines 952-957):
bucket name, operation reference, target dataset reference and the derived
bucket schema (None when the schema had no fields). -/
structure BucketPost where
  name : String
  operation : String
  targetDataset : String
  schema : Option BucketSchema
deriving DecidableEq

/-- Tail of buckets_create from line 941 on, given the resolved table_schema:
compact it, derive the bucket schema and build the POST payload, whose
targetDataset reads table_schema["id"] (KeyError when absent). -/
def buckets_create_build (new_bucket_name operation : String) (ts : Schema) :
    Except String (Option BucketPost) :=
  match (schema_compact (some ts)).1 with
  | none => .ok none
  | some compact =>
    match table_to_bucket_schema (some compact) with
    | .error e => .error e
    | .ok bucket_schema =>
      match ts.id with
      | none => .error "KeyError: id"
      | some tsid =>
        .ok (some { name := new_bucket_name
                    operation := "Operation_Type=" ++ operation
                    targetDataset := tsid
                    schema := bucket_schema })

/-- Shallow embedding of buckets_create up to the POST (prism.py lines
840-957): the Except value is the request payload the source would send (the
201 check on the response adds nothing the claims need).  The schema argument
is the already-parsed dictionary: the file-path branch of the source produces
the same dictionary or fails before anything else happens.  fetchById and
fetchByName stand for the two tables_get lookups of the target table;
gen_name stands for buckets_gen_name(). -/
def buckets_create (fetchById : String → Option Schema) (fetchByName : String → TablesList)
    (bucket_name target_name target_id : Option String) (schema : Option Schema)
    (operation : String) (gen_name : String) : Except String (Option BucketPost) :=
  let new_bucket_name := match bucket_name with | some n => n | none => gen_name
  let table_schema := schema
  match target_id, target_name with
  | none, none =>
    match table_schema with
    | none => .ok none
    | some ts =>
      if ts.id.isNone || ts.fields.isNone then .ok none
      else buckets_create_build new_bucket_name operation ts
  | _, _ =>
    let fetched : Except String (Option Schema) :=
      match target_id with
      | some tid =>
        match fetchById tid with
        | none => .ok none
        | some table => .ok (some table)
      | none =>
        match target_name with
        | some tn =>
          let tables := fetchByName tn
          if tables.total == 0 then .ok none
          else
            match tables.data with
            | [] => .error "IndexError: list index out of range"
            | table :: _ => .ok (some table)
        | none => .ok none
    match fetched with
    | .error e => .error e
    | .ok none => .ok none
    | .ok (some table) =>
      match table_schema with
      | none => buckets_create_build new_bucket_name operation table
      | some ts =>
        match table.id with
        | none => .error "KeyError: id"
        | some twid => buckets_create_build new_bucket_name operation { ts with id := some twid }

/-- The bucket descriptor buckets_create returns on success, as upload_file
and truncate_table consume it: its assigned id plus the rest of the response
body. -/
structure Bucket where
  id : String
  info : Json
deriving DecidableEq

/-- The accumulated staging receipts buckets_files returns: always a dict
with total = len(data). -/
structure FilesResult where
  total : Int
  data : List Json
deriving DecidableEq

/-- A Python value returned by the load/truncate convenience operations: the
constructors are the structurally distinct dictionaries (or None) the source
can return. -/
inductive PyOut
  | noneVal
  | body (j : Json)
  | filesOnly (f : FilesResult)
  | bodyWithAttachments (j : Json) (f : FilesResult) (b : Bucket)
deriving DecidableEq

/-- Shallow embedding of upload_file (prism.py lines 1593-1637) as a function
of its collaborator outcomes: the bucket creation result, the staging result
for the given files, and the HTTP response to the bucket complete POST.  When
at least one file was staged the source assigns into the value
buckets_complete returned; if that value is None the assignment raises
TypeError, which the embedding surfaces as an error. -/
def upload_file (createRes : Option Bucket) (fileRes : FilesResult)
    (completeResp : HttpResp) : Except String PyOut :=
  match createRes with
  | none => .ok .noneVal
  | some bucket =>
    if 0 < fileRes.total then
      match buckets_complete completeResp with
      | .error e => .error e
      | .ok none => .error "TypeError: NoneType object does not support item assignment"
      | .ok (some j) => .ok (.bodyWithAttachments j fileRes bucket)
    else
      .ok (.filesOnly fileRes)

/-- Shallow embedding of truncate_table (prism.py lines 1640-1659) as a
function of the same collaborator outcomes: the staging result is computed
(the zero-length upload) but discarded, the bucket is completed regardless,
and the bare completion result is returned (None included). -/
def truncate_table (createRes : Option Bucket) (fileRes : FilesResult)
    (completeResp : HttpResp) : Except String PyOut :=
  match createRes with
  | none => .ok .noneVal
  | some _ =>
    let _staged := fileRes
    match buckets_complete completeResp with
    | .error e => .error e
    | .ok none => .ok .noneVal
    | .ok (some j) => .ok (.body j)

/-
Concrete fixtures used by the counterexamples, the code-bug evaluations and
the witnesses below.  Each one is a small literal schema, item or
collaborator behaviour on which the embedded operations evaluate by rfl.
-/

/-- A field dictionary carrying a server-assigned id and a verbose type
descriptor, as a table listing returns it. -/
def fldC1 : PField :=
  { name := "f1"
    displayName := none
    ordinal := none
    fieldId := none
    id := some "x1"
    type := some { id := none, descriptor := some "Text" }
    externalId := some false
    required := none }

/-- A one-field schema dictionary owned by the caller of schema_compact. -/
def schC1 : Schema :=
  { name := some "t"
    id := some "T1"
    fields := some [fldC1]
    tags := none
    categories := none
    displayName := none
    description := none
    documentation := none
    enableForAnalysis := none
    parseOptions := none
    extraKeys := [] }

/-- What the loop of schema_compact turns fldC1 into in place: ordinal set,
id deleted, type rewritten to the compact reference. -/
def fldC1mut : PField :=
  { fldC1 with
    ordinal := some 1
    id := none
    type := some { id := some "Schema_Field_Type=Text", descriptor := none } }

/-- A field named XWPA_1: its name does not start with the reserved prefix
WPA_, but contains WPA as a substring. -/
def fldC3 : PField :=
  { name := "XWPA_1"
    displayName := none
    ordinal := none
    fieldId := none
    id := none
    type := none
    externalId := some false
    required := none }

/-- A one-field schema holding fldC3. -/
def schC3 : Schema :=
  { name := none
    id := none
    fields := some [fldC3]
    tags := none
    categories := none
    displayName := none
    description := none
    documentation := none
    enableForAnalysis := none
    parseOptions := none
    extraKeys := [] }

/-- A Prism-managed reserved field. -/
def fldW3a : PField :=
  { name := "WPA_RowID"
    displayName := none
    ordinal := none
    fieldId := none
    id := none
    type := none
    externalId := some false
    required := none }

/-- An ordinary external-identifier field. -/
def fldW3b : PField :=
  { name := "qty"
    displayName := some "Quantity"
    ordinal := none
    fieldId := none
    id := none
    type := none
    externalId := some true
    required := none }

/-- A schema mixing a reserved and an ordinary field. -/
def schW3 : Schema :=
  { schC3 with fields := some [fldW3a, fldW3b] }

/-- The bucket schema table_to_bucket_schema derives from schW3. -/
def bsW3 : BucketSchema :=
  { schemaVersion := "Schema_Version=1.0"
    parseOptions := defaultParseOptions
    fields := [{ name := "qty", ordinal := none, type := none, useAsOperationKey := true }] }

/-- A backend on which every request fails. -/
def srvErr : TParams → HttpResult Item := fun _ => .err

/-- A bucket listing item whose names are capitalised. -/
def bckC5 : BucketItem :=
  { name := "Alpha", displayName := "Alpha", targetId := "t1", targetDescriptor := "d1" }

/-- A buckets backend returning one short page holding bckC5. -/
def bsrvC5 : BParams → HttpResult BucketItem := fun _ =>
  .ok { total := 1, data := [bckC5] }

/-- A table listing item matching the query sales up to case. -/
def itemC5 : Item := { name := "Sales", displayName := "s" }

/-- A tables backend returning one short page holding itemC5. -/
def tsrvC5 : TParams → HttpResult Item := fun p =>
  if p.offset == 0 then .ok { total := 3, data := [itemC5] } else .err

/-- An item of the exact-name response of srvC6. -/
def itemC6 : Item := { name := "x", displayName := "X" }

/-- A tables backend whose exact-name response reports total 7 while carrying
one item. -/
def srvC6 : TParams → HttpResult Item := fun p =>
  if p.name == some "x" then .ok { total := 7, data := [itemC6] } else .err

/-- The single field of the live table tblC7. -/
def fldT7 : PField :=
  { name := "tf"
    displayName := none
    ordinal := none
    fieldId := none
    id := none
    type := none
    externalId := some true
    required := none }

/-- The live target table the lookup resolves, with server id T1-wid. -/
def tblC7 : Schema :=
  { name := some "t1"
    id := some "T1-wid"
    fields := some [fldT7]
    tags := none
    categories := none
    displayName := none
    description := none
    documentation := none
    enableForAnalysis := none
    parseOptions := none
    extraKeys := [] }

/-- The single field of the supplied schema schC7. -/
def fldS7 : PField :=
  { name := "sf"
    displayName := none
    ordinal := none
    fieldId := none
    id := none
    type := none
    externalId := some false
    required := none }

/-- A caller-supplied schema declaring its own identifier S9 and its own
field list. -/
def schC7 : Schema :=
  { name := some "s"
    id := some "S9"
    fields := some [fldS7]
    tags := none
    categories := none
    displayName := none
    description := none
    documentation := none
    enableForAnalysis := none
    parseOptions := none
    extraKeys := [] }

/-- A table lookup that resolves the explicit target id T1 to tblC7. -/
def fetchC7 : String → Option Schema := fun tid =>
  if tid == "T1" then some tblC7 else none

/-- A by-name table lookup that finds nothing (unused on the explicit-id
path). -/
def fetchNameC7 : String → TablesList := fun _ => { total := 0, data := [] }

/-- The bucket form of fldS7. -/
def bfC7 : BField :=
  { name := "sf", ordinal := none, type := none, useAsOperationKey := false }

/-- The POST payload buckets_create assembles from the explicit target T1 and
the supplied schema schC7. -/
def payloadC7 : BucketPost :=
  { name := "gen"
    operation := "Operation_Type=Insert"
    targetDataset := "T1-wid"
    schema := some { schemaVersion := "Schema_Version=1.0"
                     parseOptions := defaultParseOptions
                     fields := [bfC7] } }

/-- A created bucket descriptor. -/
def bktC8 : Bucket := { id := "b1", info := [("id", "b1")] }

/-- A staging result with one receipt. -/
def frC8 : FilesResult := { total := 1, data := [[("fileName", "a.csv.gz")]] }

/-- A parsed completion body. -/
def jC8 : Json := [("descriptor", "completed")]

/-- A parsed 400-status error body. -/
def jC9 : Json := [("errors", "row 1 invalid")]

/-- A created bucket descriptor for the truncate comparison. -/
def bktC10 : Bucket := { id := "b2", info := [("id", "b2")] }

/-- A staging result with zero receipts: the zero-length upload did not
succeed. -/
def frC10 : FilesResult := { total := 0, data := [] }

/-- A parsed completion body for the truncate comparison. -/
def jC10 : Json := [("descriptor", "truncated")]

/-
Helper lemmas shared by the claim theorems.
-/

/-- Mapping a character function over both lists preserves the prefix test. -/
theorem charsPre_map (f : Char → Char) :
    ∀ (n h : List Char), charsPre n h = true → charsPre (n.map f) (h.map f) = true
  | [], _, _ => rfl
  | _ :: _, [], h => by simp [charsPre] at h
  | a :: as, b :: bs, hp => by
    simp only [charsPre, Bool.and_eq_true, beq_iff_eq] at hp
    simp only [List.map_cons, charsPre, Bool.and_eq_true, beq_iff_eq]
    exact ⟨by rw [hp.1], charsPre_map f as bs hp.2⟩

/-- Mapping a character function over both lists preserves the substring
test. -/
theorem charsSub_map (f : Char → Char) :
    ∀ (n h : List Char), charsSub n h = true → charsSub (n.map f) (h.map f) = true
  | n, [], h => by
    simp only [charsSub, List.isEmpty_iff] at h
    simp [charsSub, h]
  | n, b :: bs, hp => by
    simp only [charsSub, Bool.or_eq_true] at hp
    simp only [List.map_cons, charsSub, Bool.or_eq_true]
    rcases hp with h | h
    · exact Or.inl (by simpa using charsPre_map f n (b :: bs) h)
    · exact Or.inr (charsSub_map f n bs h)

/-- Case-sensitive substring containment implies the case-insensitive one. -/
theorem pyIn_lower_mono (a b : String) (h : pyIn a b = true) :
    pyIn (pyLower a) (pyLower b) = true :=
  charsSub_map Char.toLower a.data b.data h

/-- Every item the searching tables loop accumulates beyond its initial
accumulator passes the case-insensitive name/displayName filter. -/
theorem tables_scan_mem (server : TParams → HttpResult Item) (tn : String) :
    ∀ (fuel : Nat) (params : TParams) (acc : List Item) (item : Item),
      item ∈ (tables_scan server (some tn) true params acc fuel).data →
      item ∈ acc ∨ pyIn (pyLower tn) (pyLower item.name) = true
        ∨ pyIn (pyLower tn) (pyLower item.displayName) = true := by
  intro fuel
  induction fuel with
  | zero =>
    intro params acc item h
    simp only [tables_scan] at h
    exact Or.inl h
  | succ n ih =>
    intro params acc item h
    simp only [tables_scan] at h
    cases hs : server params with
    | err =>
      rw [hs] at h
      exact Or.inl h
    | ok tables =>
      rw [hs] at h
      simp only [Option.isSome_some, Bool.not_true, Bool.false_and, Bool.false_eq_true,
        if_false, ite_true, Bool.and_self, if_true] at h
      split at h
      · simp only [List.mem_append, List.mem_filter, Bool.or_eq_true] at h
        rcases h with h | ⟨_, h⟩
        · exact Or.inl h
        · exact Or.inr h
      · have h2 := ih _ _ _ h
        rcases h2 with h2 | h2
        · simp only [List.mem_append, List.mem_filter, Bool.or_eq_true] at h2
          rcases h2 with h2 | ⟨_, h2⟩
          · exact Or.inl h2
          · exact Or.inr h2
        · exact Or.inr h2

/-- Every item the searching buckets loop accumulates beyond its initial
accumulator passes the case-sensitive name/displayName filter. -/
theorem buckets_scan_mem (server : BParams → HttpResult BucketItem) (bn : String)
    (table_id table_name : Option String) :
    ∀ (fuel : Nat) (params : BParams) (acc : List BucketItem) (item : BucketItem),
      item ∈ (buckets_scan server (some bn) table_id table_name true params acc fuel).data →
      item ∈ acc ∨ pyIn bn item.name = true ∨ pyIn bn item.displayName = true := by
  intro fuel
  induction fuel with
  | zero =>
    intro params acc item h
    simp only [buckets_scan] at h
    exact Or.inl h
  | succ n ih =>
    intro params acc item h
    simp only [buckets_scan] at h
    cases hs : server params with
    | err =>
      rw [hs] at h
      exact Or.inl h
    | ok buckets =>
      rw [hs] at h
      simp only [Option.isSome_some, Bool.not_true, Bool.false_and, Bool.false_eq_true,
        if_false, ite_true, Bool.and_self, if_true] at h
      split at h
      · simp only [List.mem_append, List.mem_filter, Bool.or_eq_true] at h
        rcases h with h | ⟨_, h⟩
        · exact Or.inl h
        · exact Or.inr h
      · have h2 := ih _ _ _ h
        rcases h2 with h2 | h2
        · simp only [List.mem_append, List.mem_filter, Bool.or_eq_true] at h2
          rcases h2 with h2 | ⟨_, h2⟩
          · exact Or.inl h2
          · exact Or.inr h2
        · exact Or.inr h2

/-- Every item the searching data-changes loop accumulates beyond its initial
accumulator passes the case-insensitive name/displayName filter. -/
theorem dataChanges_scan_mem (server : DCParams → HttpResult Item) (n : String)
    (search_limit : Int) (nparam : Option String) :
    ∀ (fuel : Nat) (search_offset : Int) (acc : List Item) (item : Item),
      item ∈ dataChanges_scan server (some n) search_limit nparam search_offset acc fuel →
      item ∈ acc ∨ pyIn (pyLower n) (pyLower item.name) = true
        ∨ pyIn (pyLower n) (pyLower item.displayName) = true := by
  intro fuel
  induction fuel with
  | zero =>
    intro so acc item h
    simp only [dataChanges_scan] at h
    exact Or.inl h
  | succ k ih =>
    intro so acc item h
    simp only [dataChanges_scan] at h
    cases hs : server { limit := search_limit, offset := so, name := nparam } with
    | err =>
      rw [hs] at h
      exact Or.inl h
    | ok page =>
      rw [hs] at h
      split at h
      · exact Or.inl h
      · rename_i p2 heq
        injection heq with heq2
        subst heq2
        split at h
        · simp only [List.mem_append, List.mem_filter, Bool.or_eq_true] at h
          rcases h with h | ⟨_, h⟩
          · exact Or.inl h
          · exact Or.inr h
        · have h2 := ih _ _ _ h
          rcases h2 with h2 | h2
          · simp only [List.mem_append, List.mem_filter, Bool.or_eq_true] at h2
            rcases h2 with h2 | ⟨_, h2⟩
            · exact Or.inl h2
            · exact Or.inr h2
          · exact Or.inr h2

/-- Whenever the tables loop cannot take the verbatim-body return (searching,
or no name), its result carries total equal to the length of its data. -/
theorem tables_scan_total (server : TParams → HttpResult Item) (tn : Option String)
    (search : Bool) (hcond : search = true ∨ tn = none) :
    ∀ (fuel : Nat) (params : TParams) (acc : List Item),
      (tables_scan server tn search params acc fuel).total
        = ((tables_scan server tn search params acc fuel).data.length : Int) := by
  have hfalse : (!search && tn.isSome) = false := by
    rcases hcond with h | h
    · simp [h]
    · simp [h]
  intro fuel
  induction fuel with
  | zero => intro params acc; simp [tables_scan]
  | succ n ih =>
    intro params acc
    cases hs : server params with
    | err => simp [tables_scan, hs]
    | ok tables =>
      simp only [tables_scan, hs, hfalse, Bool.false_eq_true, if_false]
      split
      · simp
      · split
        · exact ih _ _
        · simp

/-- Whenever the buckets loop cannot take the verbatim-body return, its
result carries total equal to the length of its data. -/
theorem buckets_scan_total (server : BParams → HttpResult BucketItem)
    (bn table_id table_name : Option String) (search : Bool)
    (hcond : search = true ∨ bn = none) :
    ∀ (fuel : Nat) (params : BParams) (acc : List BucketItem),
      (buckets_scan server bn table_id table_name search params acc fuel).total
        = ((buckets_scan server bn table_id table_name search params acc fuel).data.length : Int) := by
  have hfalse : (!search && bn.isSome) = false := by
    rcases hcond with h | h
    · simp [h]
    · simp [h]
  intro fuel
  induction fuel with
  | zero => intro params acc; simp [buckets_scan]
  | succ n ih =>
    intro params acc
    cases hs : server params with
    | err => simp [buckets_scan, hs]
    | ok buckets =>
      simp only [buckets_scan, hs, hfalse, Bool.false_eq_true, if_false]
      split
      · simp
      · split
        · exact ih _ _
        · simp

/-- The per-field bucket rewrite keeps every field name, in order. -/
theorem bucketFields_names :
    ∀ (l : List PField) (out : List BField),
      bucketFields l = .ok out → out.map BField.name = l.map PField.name := by
  intro l
  induction l with
  | nil =>
    intro out h
    simp only [bucketFields, Except.ok.injEq] at h
    subst h
    rfl
  | cons f t ih =>
    intro out h
    simp only [bucketFields] at h
    cases hf : bucketField f with
    | error e => rw [hf] at h; exact absurd h (by simp)
    | ok b =>
      rw [hf] at h
      cases ht : bucketFields t with
      | error e => rw [ht] at h; exact absurd h (by simp)
      | ok bs =>
        rw [ht] at h
        simp only [Except.ok.injEq] at h
        subst h
        have hb : b.name = f.name := by
          unfold bucketField at hf
          cases hext : f.externalId with
          | none => rw [hext] at hf; exact absurd hf (by simp)
          | some bb =>
            rw [hext] at hf
            simp only [Except.ok.injEq] at hf
            subst hf
            rfl
        simp only [List.map_cons, hb, ih bs ht]

/-- On a schema with a fields attribute, the value schema_compact returns
carries exactly the prefix-filtered copy of those fields (and the allow-list
strip at the top level). -/
theorem schema_compact_result (s : Schema) (flds : List PField) (hf : s.fields = some flds) :
    (schema_compact (some s)).1
      = some (schemaAllowListStrip
          { s with fields := some (flds.filter (fun f => !(pyStartsWith f.name "WPA_"))) }) := by
  simp only [schema_compact, hf]

/-- Evaluation of table_to_bucket_schema on a schema with a fields attribute,
given that the per-field rewrite succeeds. -/
theorem table_to_bucket_schema_eval (t : Schema) (flds : List PField) (bfs : List BField)
    (hf : t.fields = some flds)
    (hbf : bucketFields (flds.filter (fun x => !(pyIn "WPA" x.name))) = .ok bfs) :
    table_to_bucket_schema (some t) = .ok (some
      { schemaVersion := "Schema_Version=1.0"
        parseOptions := match t.parseOptions with
          | some p => p
          | none => defaultParseOptions
        fields := bfs }) := by
  simp only [table_to_bucket_schema, hf, hbf]

/-- Evaluation of the tail of buckets_create on a resolved schema whose id
and fields are present and whose field rewrite succeeds. -/
theorem buckets_create_build_eval (nm op tsid : String) (ts : Schema) (sf : List PField)
    (bfs : List BField) (h3 : ts.fields = some sf) (h5 : ts.id = some tsid)
    (h4 : bucketFields ((sf.filter (fun f => !(pyStartsWith f.name "WPA_"))).filter
            (fun f => !(pyIn "WPA" f.name))) = .ok bfs) :
    buckets_create_build nm op ts
      = .ok (some
          { name := nm
            operation := "Operation_Type=" ++ op
            targetDataset := tsid
            schema := some
              { schemaVersion := "Schema_Version=1.0"
                parseOptions := defaultParseOptions
                fields := bfs } }) := by
  unfold buckets_create_build
  simp only [schema_compact_result ts sf h3]
  rw [table_to_bucket_schema_eval _ _ bfs rfl h4]
  simp only [h5, schemaAllowListStrip]

/-
Claim theorems.
-/

/-- C1 (evaluation at the failing input): schema_compact is NOT side-effect
free.  On the one-field schema schC1 the caller's input is left mutated after
the call: the field gained an ordinal, lost its id and had its type
descriptor rewritten, so the post-call input differs from the original. -/
theorem schema_compact_mutates_caller_input :
    (schema_compact (some schC1)).2 = some { schC1 with fields := some [fldC1mut] }
    ∧ (schema_compact (some schC1)).2 ≠ some schC1 :=
  ⟨rfl, by decide⟩

/-- C2 (evaluation at the failing input): the compact schema schema_compact
RETURNS does not carry the claimed ordinals 1..N.  On schC1 the returned
value is the input unchanged: its only field still has no ordinal and still
carries its server id, because the loop wrote through an alias into the
caller's dictionary instead of the copy. -/
theorem schema_compact_output_ordinals_unset :
    (schema_compact (some schC1)).1 = some schC1
    ∧ schC1.fields = some [fldC1] ∧ fldC1.ordinal = none ∧ fldC1.id = some "x1" :=
  ⟨rfl, rfl, rfl, rfl⟩

/-- C3 (counterexample): table_to_bucket_schema removes a field whose name
does NOT begin with the reserved prefix WPA_.  The field XWPA_1 fails the
startswith test, yet the derived bucket schema is empty, because the source
drops every field whose name merely contains WPA. -/
theorem table_to_bucket_schema_drops_unreserved_field :
    pyStartsWith fldC3.name "WPA_" = false
    ∧ schC3.fields = some [fldC3]
    ∧ table_to_bucket_schema (some schC3)
        = .ok (some { schemaVersion := "Schema_Version=1.0"
                      parseOptions := defaultParseOptions
                      fields := [] }) :=
  ⟨rfl, rfl, rfl⟩

/-- C3 (amended): on any schema with a fields attribute, normalize
(schema_compact) keeps exactly the fields whose name does not START WITH
WPA_, in order, while bucket-schema derivation (table_to_bucket_schema)
keeps exactly the fields whose name does not CONTAIN the substring WPA, in
order — a strictly larger removal that still covers every WPA_-prefixed
field. -/
theorem wpa_field_removal (s : Schema) (flds : List PField) (h : s.fields = some flds) :
    (∃ r, (schema_compact (some s)).1 = some r
        ∧ r.fields = some (flds.filter (fun f => !(pyStartsWith f.name "WPA_"))))
    ∧ (∀ bs, table_to_bucket_schema (some s) = .ok (some bs) →
        bs.fields.map BField.name
          = (flds.filter (fun f => !(pyIn "WPA" f.name))).map PField.name) := by
  constructor
  · exact ⟨_, schema_compact_result s flds h, rfl⟩
  · intro bs hok
    cases hbf : bucketFields (flds.filter (fun x => !(pyIn "WPA" x.name))) with
    | error e =>
      rw [table_to_bucket_schema] at hok
      simp only [h, hbf] at hok
      exact absurd hok (by simp)
    | ok bfields =>
      rw [table_to_bucket_schema_eval s flds bfields h hbf] at hok
      simp only [Except.ok.injEq, Option.some.injEq] at hok
      subst hok
      exact bucketFields_names _ _ hbf

/-- C3 (witness): on the concrete schema schW3, holding the reserved field
WPA_RowID and the ordinary field qty, the derived bucket schema keeps
exactly qty. -/
theorem wpa_field_removal_witness :
    bsW3.fields.map BField.name
      = (([fldW3a, fldW3b] : List PField).filter
          (fun f => !(pyIn "WPA" f.name))).map PField.name :=
  (wpa_field_removal schW3 [fldW3a, fldW3b] rfl).2 bsW3 rfl

/-- C4 (evaluation at the failing input): tables_get does fail.  Called
without id and name, with the integer limit 1 and the default offset None,
it raises TypeError while building its params dictionary — before any
request — because the offset guard tests isinstance(limit, int) instead of
isinstance(offset, int); the backend is never consulted. -/
theorem tables_get_raises_on_none_offset :
    tables_get srvErr none (some 1) none false 3
      = .error "TypeError: comparison of NoneType and int" :=
  rfl

/-- C5 (counterexample): the buckets search filter is NOT case-insensitive.
The backend bsrvC5 serves one bucket named Alpha; the query alpha matches it
case-insensitively, yet the search returns no items, because buckets_get
filters with plain case-sensitive substring containment. -/
theorem buckets_get_search_drops_ci_match :
    bsrvC5 { limit := 100, offset := 0, name := none } = .ok { total := 1, data := [bckC5] }
    ∧ pyIn (pyLower "alpha") (pyLower bckC5.name) = true
    ∧ buckets_get bsrvC5 (some "alpha") true none none 3 = { total := 0, data := [] } :=
  ⟨rfl, rfl, rfl⟩

/-- C5 (amended): in a full scan with a query, every item any of the three
list operations returns has a name or display-name that case-insensitively
contains the query — tables_get and dataChanges_get filter
case-insensitively, while buckets_get filters case-sensitively, which still
implies the case-insensitive containment of what it returns. -/
theorem full_scan_search_containment :
    (∀ (server : TParams → HttpResult Item) (tn : String) (limit offset : Option Int)
        (fuel : Nat) (out : PageOf Item) (item : Item),
        tables_get server (some tn) limit offset true fuel = .ok out →
        item ∈ out.data →
        pyIn (pyLower tn) (pyLower item.name) = true
          ∨ pyIn (pyLower tn) (pyLower item.displayName) = true)
    ∧ (∀ (server : BParams → HttpResult BucketItem) (bn : String)
        (table_id table_name : Option String) (fuel : Nat) (item : BucketItem),
        item ∈ (buckets_get server (some bn) true table_id table_name fuel).data →
        pyIn (pyLower bn) (pyLower item.name) = true
          ∨ pyIn (pyLower bn) (pyLower item.displayName) = true)
    ∧ (∀ (server : DCParams → HttpResult Item) (n : String) (limit offset : Option Int)
        (fuel : Nat) (item : Item), 0 < n.length →
        item ∈ (dataChanges_get server (some n) limit offset true fuel).data →
        pyIn (pyLower n) (pyLower item.name) = true
          ∨ pyIn (pyLower n) (pyLower item.displayName) = true) := by
  refine ⟨?_, ?_, ?_⟩
  · intro server tn limit offset fuel out item hok hmem
    unfold tables_get at hok
    cases hoe : tables_offset_entry limit offset with
    | error e => rw [hoe] at hok; exact absurd hok (by simp)
    | ok op =>
      rw [hoe] at hok
      simp only [Except.ok.injEq] at hok
      subst hok
      rcases tables_scan_mem server tn fuel _ [] item hmem with h | h
      · simp at h
      · exact h
  · intro server bn table_id table_name fuel item hmem
    rcases buckets_scan_mem server bn table_id table_name fuel _ [] item hmem with h | h | h
    · simp at h
    · exact Or.inl (pyIn_lower_mono bn item.name h)
    · exact Or.inr (pyIn_lower_mono bn item.displayName h)
  · intro server n limit offset fuel item hn hmem
    have hsetup : dataChanges_setup (some n) limit offset true =
        { searching := some n, nparam := none, search_limit := 500, search_offset := 0 } := by
      simp [dataChanges_setup, hn]
    simp only [dataChanges_get, hsetup] at hmem
    rcases dataChanges_scan_mem server n 500 none fuel 0 [] item hmem with h | h
    · simp at h
    · exact h

/-- C5 (witness): the table named Sales served by tsrvC5 is returned for the
query SALES and indeed matches it case-insensitively. -/
theorem full_scan_search_containment_witness :
    pyIn (pyLower "SALES") (pyLower itemC5.name) = true
      ∨ pyIn (pyLower "SALES") (pyLower itemC5.displayName) = true :=
  full_scan_search_containment.1 tsrvC5 "SALES" none none 3
    { total := 1, data := [itemC5] } itemC5 rfl (by simp)

/-- C6 (counterexample): on the exact-name path (searching false, name
given), tables_get returns the parsed server body verbatim, so a server
reporting total 7 with one item yields a result violating total ==
len(data). -/
theorem tables_get_exact_name_returns_server_total :
    tables_get srvC6 (some "x") none none false 3 = .ok { total := 7, data := [itemC6] }
    ∧ ({ total := 7, data := [itemC6] } : PageOf Item).total
        ≠ ((({ total := 7, data := [itemC6] } : PageOf Item).data.length : Int)) :=
  ⟨rfl, by decide⟩

/-- C6 (amended): total == len(data), recomputed from the accumulated data,
holds for tables_get and buckets_get on every path EXCEPT the exact-name
verbatim return (so whenever searching is on or no name was given), and for
dataChanges_get on every path including its exact-name one. -/
theorem paged_total_recomputed :
    (∀ (server : TParams → HttpResult Item) (tn : Option String) (limit offset : Option Int)
        (search : Bool) (fuel : Nat) (out : PageOf Item),
        (search = true ∨ tn = none) →
        tables_get server tn limit offset search fuel = .ok out →
        out.total = (out.data.length : Int))
    ∧ (∀ (server : BParams → HttpResult BucketItem) (bn : Option String) (search : Bool)
        (table_id table_name : Option String) (fuel : Nat),
        (search = true ∨ bn = none) →
        (buckets_get server bn search table_id table_name fuel).total
          = ((buckets_get server bn search table_id table_name fuel).data.length : Int))
    ∧ (∀ (server : DCParams → HttpResult Item) (n : Option String) (limit offset : Option Int)
        (search : Bool) (fuel : Nat),
        (dataChanges_get server n limit offset search fuel).total
          = ((dataChanges_get server n limit offset search fuel).data.length : Int)) := by
  refine ⟨?_, ?_, ?_⟩
  · intro server tn limit offset search fuel out hcond hok
    unfold tables_get at hok
    cases hoe : tables_offset_entry limit offset with
    | error e => rw [hoe] at hok; exact absurd hok (by simp)
    | ok op =>
      rw [hoe] at hok
      simp only [Except.ok.injEq] at hok
      subst hok
      cases search with
      | true =>
        cases tn with
        | none => exact tables_scan_total server none true (Or.inl rfl) fuel _ []
        | some t => exact tables_scan_total server (some t) true (Or.inl rfl) fuel _ []
      | false =>
        cases tn with
        | some t =>
          rcases hcond with h | h
          · exact absurd h (by simp)
          · exact absurd h (by simp)
        | none =>
          cases limit with
          | none => exact tables_scan_total server none true (Or.inr rfl) fuel _ []
          | some l => exact tables_scan_total server none false (Or.inr rfl) fuel _ []
  · intro server bn search table_id table_name fuel hcond
    cases search with
    | true =>
      cases bn with
      | none => exact buckets_scan_total server none table_id table_name true (Or.inl rfl) fuel _ []
      | some b => exact buckets_scan_total server (some b) table_id table_name true (Or.inl rfl) fuel _ []
    | false =>
      cases bn with
      | some b =>
        rcases hcond with h | h
        · exact absurd h (by simp)
        · exact absurd h (by simp)
      | none => exact buckets_scan_total server none table_id table_name true (Or.inl rfl) fuel _ []
  · intro server n limit offset search fuel
    rfl

/-- C6 (witness): an unreachable backend with no name filter yields the empty
result, whose recomputed total equals its length. -/
theorem paged_total_recomputed_witness :
    tables_get srvErr none (some 5) (some 0) false 3 = .ok { total := 0, data := [] }
    ∧ ({ total := 0, data := [] } : PageOf Item).total
        = ((({ total := 0, data := [] } : PageOf Item).data.length : Int)) :=
  ⟨rfl, paged_total_recomputed.1 srvErr none (some 5) (some 0) false 3
    { total := 0, data := [] } (Or.inr rfl) rfl⟩

/-- C7 (counterexample): when both an explicit target and a schema are
supplied, the schema's declared identifier does NOT set the target: the
supplied schema declares S9, but the payload's target dataset is the
looked-up table's id T1-wid — the explicit target overwrote the schema's
identifier, not the other way round. -/
theorem buckets_create_target_overrides_schema_id :
    schC7.id = some "S9"
    ∧ buckets_create fetchC7 fetchNameC7 none none (some "T1") (some schC7) "Insert" "gen"
        = .ok (some payloadC7)
    ∧ payloadC7.targetDataset = "T1-wid"
    ∧ ("T1-wid" : String) ≠ "S9" :=
  ⟨rfl, rfl, rfl, by decide⟩

/-- C7 (amended): with an explicit target id AND a supplied schema, the
resolved table's id overrides the schema's declared identifier in the
payload, while the supplied schema's field list — not the live table's
fields, which are left fully unconstrained here — is what the bucket schema
is derived from. -/
theorem buckets_create_schema_fields_win
    (fetchById : String → Option Schema) (fetchByName : String → TablesList)
    (tid twid op gen : String) (table ts : Schema) (sf : List PField) (bfs : List BField)
    (h1 : fetchById tid = some table)
    (h2 : table.id = some twid)
    (h3 : ts.fields = some sf)
    (h4 : bucketFields ((sf.filter (fun f => !(pyStartsWith f.name "WPA_"))).filter
            (fun f => !(pyIn "WPA" f.name))) = .ok bfs) :
    buckets_create fetchById fetchByName none none (some tid) (some ts) op gen
      = .ok (some
          { name := gen
            operation := "Operation_Type=" ++ op
            targetDataset := twid
            schema := some
              { schemaVersion := "Schema_Version=1.0"
                parseOptions := defaultParseOptions
                fields := bfs } })
      ∧ bfs.map BField.name
        = ((sf.filter (fun f => !(pyStartsWith f.name "WPA_"))).filter
            (fun f => !(pyIn "WPA" f.name))).map PField.name := by
  constructor
  · have hstep : buckets_create fetchById fetchByName none none (some tid) (some ts) op gen
        = buckets_create_build gen op { ts with id := some twid } := by
      unfold buckets_create
      simp only [h1, h2]
    rw [hstep]
    exact buckets_create_build_eval gen op twid { ts with id := some twid } sf bfs h3 rfl h4
  · exact bucketFields_names _ _ h4

/-- C7 (witness): on the concrete lookup fetchC7 and schema schC7, the
payload targets T1-wid and its bucket schema holds exactly the bucket form
of the supplied field sf. -/
theorem buckets_create_schema_fields_win_witness :
    buckets_create fetchC7 fetchNameC7 none none (some "T1") (some schC7) "Insert" "gen"
      = .ok (some
          { name := "gen"
            operation := "Operation_Type=" ++ "Insert"
            targetDataset := "T1-wid"
            schema := some
              { schemaVersion := "Schema_Version=1.0"
                parseOptions := defaultParseOptions
                fields := [bfC7] } })
    ∧ ([bfC7] : List BField).map BField.name
        = ((([fldS7] : List PField).filter (fun f => !(pyStartsWith f.name "WPA_"))).filter
            (fun f => !(pyIn "WPA" f.name))).map PField.name :=
  buckets_create_schema_fields_win fetchC7 fetchNameC7 "T1" "T1-wid" "Insert" "gen"
    tblC7 schC7 [fldS7] [bfC7] rfl rfl rfl rfl

/-- C8 (counterexample): the absent-completion branch of upload_file is
reachable and unguarded.  With a created bucket, one staged file and a
completion response of status 500, buckets_complete returns None and the
attachment step raises TypeError. -/
theorem upload_file_typeerror_on_failed_complete :
    upload_file (some bktC8) frC8 { status := 500, json := some jC8 }
      = .error "TypeError: NoneType object does not support item assignment" :=
  rfl

/-- C8 (amended): under the precondition that bucket creation succeeded and
at least one file was staged, upload_file returns the completion body with
the staging receipts and bucket descriptor attached whenever
buckets_complete yields a body (status 201 or 400); for every other
completion status buckets_complete yields an absent result and the
attachment raises TypeError — the branch is reachable, not guarded. -/
theorem upload_file_attach (b : Bucket) (fr : FilesResult) (resp : HttpResp) (j : Json)
    (hjson : resp.json = some j) (htot : 0 < fr.total) :
    ((resp.status = 201 ∨ resp.status = 400) →
      upload_file (some b) fr resp = .ok (.bodyWithAttachments j fr b))
    ∧ (resp.status ≠ 201 → resp.status ≠ 400 →
      upload_file (some b) fr resp
        = .error "TypeError: NoneType object does not support item assignment") := by
  constructor
  · intro hst
    have hbc : buckets_complete resp = .ok (some j) := by
      unfold buckets_complete
      rcases hst with h | h <;> simp [h, hjson]
    simp only [upload_file, if_pos htot, hbc]
  · intro h1 h2
    have hbc : buckets_complete resp = .ok none := by
      unfold buckets_complete
      rw [if_neg (by simp [h1]), if_neg (by simp [h2])]
    simp only [upload_file, if_pos htot, hbc]

/-- C8 (witness): with one staged file and a 201 completion, upload_file
returns the completion body with receipts and the bucket attached. -/
theorem upload_file_attach_witness :
    upload_file (some bktC8) frC8 { status := 201, json := some jC8 }
      = .ok (.bodyWithAttachments jC8 frC8 bktC8) :=
  (upload_file_attach bktC8 frC8 { status := 201, json := some jC8 } jC8 rfl (by decide)).1
    (Or.inl rfl)

/-- C9: buckets_complete returns the parsed body on the 201 creation-success
status, returns the parsed JSON error body without raising on the 400
bad-request status, and returns an absent result for every other status
(whatever the body holds, since the body is then never parsed). -/
theorem buckets_complete_status (st : Nat) (j : Json) :
    (st = 201 → buckets_complete { status := st, json := some j } = .ok (some j))
    ∧ (st = 400 → buckets_complete { status := st, json := some j } = .ok (some j))
    ∧ (st ≠ 201 → st ≠ 400 → ∀ body : Option Json,
        buckets_complete { status := st, json := body } = .ok none) := by
  refine ⟨?_, ?_, ?_⟩
  · intro h; subst h; rfl
  · intro h; subst h; rfl
  · intro h1 h2 body
    unfold buckets_complete
    rw [if_neg (by simp [h1]), if_neg (by simp [h2])]

/-- C9 (witness): the three status behaviours at a concrete error body. -/
theorem buckets_complete_status_witness :
    buckets_complete { status := 201, json := some jC9 } = .ok (some jC9)
    ∧ buckets_complete { status := 400, json := some jC9 } = .ok (some jC9)
    ∧ buckets_complete { status := 500, json := some jC9 } = .ok none :=
  ⟨(buckets_complete_status 201 jC9).1 rfl,
   (buckets_complete_status 400 jC9).2.1 rfl,
   (buckets_complete_status 500 jC9).2.2 (by decide) (by decide) (some jC9)⟩

/-- C10 (counterexample): truncate_table and upload_file with no files do
NOT return the same result when the zero-length upload does not succeed:
with zero staged receipts, truncate_table still completes the bucket and
returns the bare completion body, while upload_file skips completion and
returns the staging result — two different values. -/
theorem truncate_differs_from_upload :
    truncate_table (some bktC10) frC10 { status := 201, json := some jC10 }
      = .ok (.body jC10)
    ∧ upload_file (some bktC10) frC10 { status := 201, json := some jC10 }
        = .ok (.filesOnly frC10)
    ∧ PyOut.body jC10 ≠ PyOut.filesOnly frC10 :=
  ⟨rfl, rfl, by decide⟩

/-- C10 (amended): both operations create a bucket and fail alike when
creation fails, and when completion yields a body, truncate_table always
completes and returns that body bare, while upload_file completes only when
at least one file was staged — returning the body with receipts and bucket
attached — and otherwise returns the staging result without completing. -/
theorem truncate_vs_upload (b : Bucket) (fr : FilesResult) (resp : HttpResp) (j : Json)
    (hjson : resp.json = some j) (hok : resp.status = 201 ∨ resp.status = 400) :
    truncate_table (some b) fr resp = .ok (.body j)
    ∧ (0 < fr.total → upload_file (some b) fr resp = .ok (.bodyWithAttachments j fr b))
    ∧ (¬ 0 < fr.total → upload_file (some b) fr resp = .ok (.filesOnly fr))
    ∧ truncate_table none fr resp = .ok .noneVal
    ∧ upload_file none fr resp = .ok .noneVal := by
  have hbc : buckets_complete resp = .ok (some j) := by
    unfold buckets_complete
    rcases hok with h | h <;> simp [h, hjson]
  refine ⟨?_, ?_, ?_, rfl, rfl⟩
  · simp only [truncate_table, hbc]
  · intro h; simp only [upload_file, if_pos h, hbc]
  · intro h; simp only [upload_file, if_neg h]

/-- C10 (witness): at the concrete zero-receipts staging result, the two
return values of the relationship theorem evaluate as stated. -/
theorem truncate_vs_upload_witness :
    truncate_table (some bktC10) frC10 { status := 201, json := some jC10 }
      = .ok (.body jC10)
    ∧ upload_file (some bktC10) frC10 { status := 201, json := some jC10 }
        = .ok (.filesOnly frC10) :=
  ⟨(truncate_vs_upload bktC10 frC10 { status := 201, json := some jC10 } jC10 rfl
      (Or.inl rfl)).1,
   (truncate_vs_upload bktC10 frC10 { status := 201, json := some jC10 } jC10 rfl
      (Or.inl rfl)).2.2.1 (by decide)⟩
